import Mathlib

/-!
# ApplianceCare AI Assistant — verification of the specification against the code

This development shallowly embeds the repository's code and settles the
spec's claims against it.

The repository snapshot contains the frontend only
(`src/frontend/app/page.jsx`, `src/frontend/app/layout.jsx`).  The
`handleSearch` handler and the `Home` component's rendering logic are
embedded below as pure Lean functions over an explicit component state and
an explicit network outcome.  Intermediate effects (state setters, the HTTP
request) are recorded as an event trace so that ordering properties
("loading is set before the request is issued") are statable.

The backend query orchestrator (confidence gate, context assembler,
fallback policy) is not present in the snapshot; it is modelled from the
spec, as marked on each such definition.

JavaScript numbers are modelled as rationals (`ℚ`); `null`/absent values
as `Option`; JavaScript truthiness of strings as "non-empty".
-/

/-- The component state held by the `Home` component in
`src/frontend/app/page.jsx`: the five `useState` hooks
`query`, `answer`, `totalScore`, `loading`, `error`. -/
structure FrontendState where
  query : String
  answer : Option String
  totalScore : Option ℚ
  loading : Bool
  error : Option String
deriving DecidableEq, Repr

/-- A POST request as issued by `axios.post(url, { query: ... })`:
the target URL and the `query` field of the JSON body. -/
structure PostRequest where
  url : String
  bodyQuery : String
deriving DecidableEq, Repr

/-- The outcome of the awaited `axios.post` call, as far as `handleSearch`
observes it: a 200 response with `answer` and `total_score` fields, an
axios (HTTP) error whose response body may carry a `detail` field, or any
other thrown failure. -/
inductive NetOutcome where
  | ok (answer : Option String) (total_score : ℚ)
  | axiosErr (detail : Option String)
  | otherErr
deriving DecidableEq, Repr

/-- One observable effect performed by `handleSearch`: a state-setter call
or the HTTP POST. -/
inductive Event where
  | setLoading (b : Bool)
  | setError (v : Option String)
  | setAnswer (v : Option String)
  | setScore (v : Option ℚ)
  | httpPost (r : PostRequest)
deriving DecidableEq, Repr

/-- The URL hard-coded in `handleSearch`. -/
def queryUrl : String := "http://localhost:8000/query"

/-- JavaScript `String.prototype.trim()`: the string with leading and
trailing whitespace characters removed. -/
def jsTrim (s : String) : String :=
  ⟨((s.data.dropWhile Char.isWhitespace).reverse.dropWhile
      Char.isWhitespace).reverse⟩

/-- JavaScript `a || b` on an optional string `a`: the default is used when
`a` is absent or falsy (the empty string), as in
`err.response?.data?.detail || 'An error occurred while searching'`. -/
def jsOrElse (v : Option String) (d : String) : String :=
  match v with
  | none => d
  | some s => if s = "" then d else s

/-- The sequence of effects performed by one invocation of `handleSearch`
(`src/frontend/app/page.jsx`, lines 13–39) on input `q` when the network
behaves as `net`.  Mirrors the source line by line: the blank-trim guard
returns early; otherwise loading is set, the three result fields are
reset, the POST is issued with the trimmed query, the `try`/`catch` sets
either the answer fields or the error, and the `finally` clears loading. -/
def handleSearchTrace (q : String) (net : NetOutcome) : List Event :=
  if jsTrim q = "" then []
  else
    [Event.setLoading true, Event.setError none, Event.setAnswer none,
     Event.setScore none,
     Event.httpPost ⟨queryUrl, jsTrim q⟩]
    ++ (match net with
        | .ok a ts => [Event.setAnswer a, Event.setScore (some ts)]
        | .axiosErr d =>
            [Event.setError (some (jsOrElse d "An error occurred while searching"))]
        | .otherErr => [Event.setError (some "An unexpected error occurred")])
    ++ [Event.setLoading false]

/-- Effect of a single event on the component state; the HTTP POST does
not itself change React state. -/
def applyEvent (s : FrontendState) : Event → FrontendState
  | .setLoading b => { s with loading := b }
  | .setError v => { s with error := v }
  | .setAnswer v => { s with answer := v }
  | .setScore v => { s with totalScore := v }
  | .httpPost _ => s

/-- Running a trace of events over a state. -/
def runTrace (s : FrontendState) (tr : List Event) : FrontendState :=
  tr.foldl applyEvent s

/-- The state after one complete invocation of `handleSearch`. -/
def handleSearch (s : FrontendState) (net : NetOutcome) : FrontendState :=
  runTrace s (handleSearchTrace s.query net)

/-- The HTTP requests issued during a trace. -/
def requestsOf (tr : List Event) : List PostRequest :=
  tr.filterMap (fun e => match e with | .httpPost r => some r | _ => none)

/-- JavaScript truthiness of a possibly-null string value. -/
def truthyStr : Option String → Bool
  | none => false
  | some s => s ≠ ""

/-- What the `Home` component's JSX renders from a given state:
whether the input and button are disabled
(`disabled={loading}` and `disabled={loading || !query.trim()}`),
the error message shown (`{error && ...}`), the answer shown
(`{answer && ...}`), and the confidence score shown (the badge is inside
the answer block and additionally guarded by `totalScore !== null`). -/
structure RenderedUI where
  inputDisabled : Bool
  buttonDisabled : Bool
  errorShown : Option String
  answerShown : Option String
  scoreShown : Option ℚ
deriving DecidableEq, Repr

/-- The rendering function of the `Home` component
(`src/frontend/app/page.jsx`, lines 41–89). -/
def render (s : FrontendState) : RenderedUI :=
  { inputDisabled := s.loading
    buttonDisabled := s.loading || jsTrim s.query = ""
    errorShown := if truthyStr s.error then s.error else none
    answerShown := if truthyStr s.answer then s.answer else none
    scoreShown :=
      if truthyStr s.answer ∧ s.totalScore ≠ none then s.totalScore else none }

/-! ## Backend orchestrator, modelled from the spec

The backend (query orchestrator, confidence gate, context assembler) is
not part of the repository snapshot, which contains only the frontend.
The definitions below are modelled from the spec, §3–§4 and §8. -/

/-- Modelled from the spec: one retrieved record from the vector search
service, `{score, text, source, chunk_index}` (§3 `SearchMatch`).  The
backend source is missing from the snapshot. -/
structure SearchMatch where
  score : ℚ
  text : String
  source : String
  chunk_index : ℕ
deriving DecidableEq, Repr

/-- Modelled from the spec: the orchestrator's final output
`{answer, total_score}` (§3 `AnswerResult`). -/
structure AnswerResult where
  answer : String
  total_score : ℚ
deriving DecidableEq, Repr

/-- Modelled from the spec: the fixed fallback string of §4.1 step 6. -/
def FALLBACK_TEXT : String :=
  "I could not find enough information about this issue in the dataset."

/-- Modelled from the spec: the Confidence Gate's score (§4.3): the
arithmetic mean of the `score` fields times 100, with an explicit
empty-set check yielding exactly 0 (not a runtime division by zero). -/
def confidenceScore (ms : List SearchMatch) : ℚ :=
  if ms = [] then 0
  else (ms.map SearchMatch.score).sum / (ms.length : ℚ) * 100

/-- Modelled from the spec: the Confidence Gate's pass predicate (§4.3),
inclusive at the threshold: `score >= threshold`. -/
def passes (score threshold : ℚ) : Bool := threshold ≤ score

/-- Modelled from the spec: the default `score_threshold_percent` (§6). -/
def defaultThreshold : ℚ := 25

/-- Modelled from the spec: the Context Assembler (§4.2), concatenating
each match's `text` in result-set order with a configurable delimiter. -/
def assemble (delim : String) (ms : List SearchMatch) : String :=
  String.intercalate delim (ms.map SearchMatch.text)

/-- Modelled from the spec: the orchestrator's outcome for one request:
the returned `AnswerResult` together with the list of prompts sent to the
generation client (empty on the fallback path), so that "the generation
client is never invoked" is statable. -/
structure OrchestratorOutcome where
  result : AnswerResult
  genPrompts : List String
deriving DecidableEq, Repr

/-- Modelled from the spec: the Query Orchestrator's gate-and-answer
steps 4–7 of §4.1 (after embedding and search have succeeded): an empty
result set goes directly to the fallback with score 0; otherwise the
confidence score is computed and the generation path is taken exactly
when the score passes the (inclusive) gate; the fallback result carries
the true computed score.  `gen` is the injected generation client. -/
def orchestrate (threshold : ℚ) (gen : String → String) (query : String)
    (ms : List SearchMatch) : OrchestratorOutcome :=
  if ms = [] then
    ⟨⟨FALLBACK_TEXT, 0⟩, []⟩
  else
    let cs := confidenceScore ms
    if passes cs threshold then
      let prompt := assemble "\n\n" ms ++ "\n\n" ++ query
      ⟨⟨gen prompt, cs⟩, [prompt]⟩
    else
      ⟨⟨FALLBACK_TEXT, cs⟩, []⟩

/-! ## Claims about the frontend (`src/frontend/app/page.jsx`) -/

/-- C1: for every query whose trimmed form is empty, `handleSearch`
returns before issuing the HTTP request — the trace is empty, so no
external call of any kind is made and the state is unchanged. -/
theorem handleSearch_blank_no_call (s : FrontendState) (net : NetOutcome)
    (h : jsTrim s.query = "") :
    handleSearchTrace s.query net = [] ∧
    requestsOf (handleSearchTrace s.query net) = [] ∧
    handleSearch s net = s := by
  have ht : handleSearchTrace s.query net = [] := by
    unfold handleSearchTrace
    rw [if_pos h]
  refine ⟨ht, ?_, ?_⟩
  · rw [ht]; rfl
  · unfold handleSearch runTrace
    rw [ht]
    rfl

/-- C1 witness: the whitespace-only query `"   "` issues no request and
leaves the state unchanged. -/
theorem handleSearch_blank_no_call_witness :
    handleSearchTrace "   " NetOutcome.otherErr = [] ∧
    requestsOf (handleSearchTrace "   " NetOutcome.otherErr) = [] ∧
    handleSearch ⟨"   ", none, none, false, none⟩ NetOutcome.otherErr =
      ⟨"   ", none, none, false, none⟩ :=
  handleSearch_blank_no_call ⟨"   ", none, none, false, none⟩
    NetOutcome.otherErr (by decide)

/-- C2: for every query whose trimmed form is non-empty, exactly one POST
request is issued, to the `/query` URL with body field `query` equal to
the trimmed input, and on a 200 response the displayed answer is set to
the response's `answer` field and the displayed score to its
`total_score` field, unmodified. -/
theorem handleSearch_posts_once (s : FrontendState) (net : NetOutcome)
    (h : jsTrim s.query ≠ "") :
    requestsOf (handleSearchTrace s.query net) =
      [⟨queryUrl, jsTrim s.query⟩] ∧
    (∀ a ts, net = NetOutcome.ok a ts →
      (handleSearch s net).answer = a ∧
      (handleSearch s net).totalScore = some ts) := by
  constructor
  · unfold requestsOf handleSearchTrace
    rw [if_neg h]
    cases net <;> simp
  · rintro a ts rfl
    unfold handleSearch runTrace handleSearchTrace
    rw [if_neg h]
    simp [applyEvent]

/-- C2 witness: the query `" hi "` with a 200 response carrying answer
`"ans"` and score 42 issues the single POST and stores both fields. -/
theorem handleSearch_posts_once_witness :
    requestsOf (handleSearchTrace (FrontendState.query
        ⟨" hi ", none, none, false, none⟩) (NetOutcome.ok (some "ans") 42)) =
      [⟨queryUrl, jsTrim " hi "⟩] ∧
    (∀ a ts, NetOutcome.ok (some "ans") (42 : ℚ) = NetOutcome.ok a ts →
      (handleSearch ⟨" hi ", none, none, false, none⟩
          (NetOutcome.ok (some "ans") 42)).answer = a ∧
      (handleSearch ⟨" hi ", none, none, false, none⟩
          (NetOutcome.ok (some "ans") 42)).totalScore = some ts) :=
  handleSearch_posts_once ⟨" hi ", none, none, false, none⟩
    (NetOutcome.ok (some "ans") 42) (by decide)

/-- C3: every request issued by `handleSearch` carries as its body the
input query trimmed of leading and trailing whitespace. -/
theorem handleSearch_body_trimmed (s : FrontendState) (net : NetOutcome)
    (r : PostRequest) (hr : r ∈ requestsOf (handleSearchTrace s.query net)) :
    r.bodyQuery = jsTrim s.query := by
  unfold requestsOf handleSearchTrace at hr
  by_cases h : jsTrim s.query = ""
  · rw [if_pos h] at hr
    simp at hr
  · rw [if_neg h] at hr
    cases net <;> simp at hr <;> rw [hr]

/-- C3 witness: the request issued for input `" fix fridge "` carries the
trimmed body `"fix fridge"`. -/
theorem handleSearch_body_trimmed_witness :
    (⟨queryUrl, "fix fridge"⟩ : PostRequest).bodyQuery =
      jsTrim (FrontendState.query ⟨" fix fridge ", none, none, false, none⟩) :=
  handleSearch_body_trimmed ⟨" fix fridge ", none, none, false, none⟩
    (NetOutcome.ok none 0) ⟨queryUrl, "fix fridge"⟩ (by decide)

/-- C4 counterexample: when the error response body carries the `detail`
field with the empty-string value — the field is present — the message
shown is not that `detail` value but the generic fallback, because the
source uses JavaScript `||`, which treats the empty string as falsy. -/
theorem handleSearch_detail_present_not_shown :
    (handleSearch ⟨"hi", none, none, false, none⟩
        (NetOutcome.axiosErr (some ""))).error =
      some "An error occurred while searching" ∧
    (handleSearch ⟨"hi", none, none, false, none⟩
        (NetOutcome.axiosErr (some ""))).error ≠ some "" := by
  decide

/-- C4 (amended): for every failed request, the message shown is the
`detail` field of the error response body when that field is present and
non-empty (truthy); when it is absent or empty the fixed string
"An error occurred while searching" is shown for axios errors and
"An unexpected error occurred" for any other failure; and answer and
totalScore remain null on every failure. -/
theorem handleSearch_error_message (s : FrontendState) (net : NetOutcome)
    (h : jsTrim s.query ≠ "") :
    (∀ d, net = NetOutcome.axiosErr (some d) → d ≠ "" →
      (handleSearch s net).error = some d) ∧
    (∀ d, net = NetOutcome.axiosErr d → (d = none ∨ d = some "") →
      (handleSearch s net).error = some "An error occurred while searching") ∧
    (net = NetOutcome.otherErr →
      (handleSearch s net).error = some "An unexpected error occurred") ∧
    ((net = NetOutcome.otherErr ∨ ∃ d, net = NetOutcome.axiosErr d) →
      (handleSearch s net).answer = none ∧
      (handleSearch s net).totalScore = none) := by
  refine ⟨?_, ?_, ?_, ?_⟩
  · rintro d rfl hd
    unfold handleSearch runTrace handleSearchTrace
    rw [if_neg h]
    simp [applyEvent, jsOrElse, hd]
  · rintro d rfl hd
    unfold handleSearch runTrace handleSearchTrace
    rw [if_neg h]
    rcases hd with rfl | rfl <;> simp [applyEvent, jsOrElse]
  · rintro rfl
    unfold handleSearch runTrace handleSearchTrace
    rw [if_neg h]
    simp [applyEvent]
  · rintro (rfl | ⟨d, rfl⟩) <;>
      · unfold handleSearch runTrace handleSearchTrace
        rw [if_neg h]
        simp [applyEvent]

/-- C4 witness: for the query `"hi"` and an axios error whose body has
`detail` equal to `"boom"`, the shown error is `"boom"`. -/
theorem handleSearch_error_message_witness :
    (∀ d, NetOutcome.axiosErr (some "boom") = NetOutcome.axiosErr (some d) →
      d ≠ "" →
      (handleSearch ⟨"hi", none, none, false, none⟩
          (NetOutcome.axiosErr (some "boom"))).error = some d) ∧
    (∀ d, NetOutcome.axiosErr (some "boom") = NetOutcome.axiosErr d →
      (d = none ∨ d = some "") →
      (handleSearch ⟨"hi", none, none, false, none⟩
          (NetOutcome.axiosErr (some "boom"))).error =
        some "An error occurred while searching") ∧
    (NetOutcome.axiosErr (some "boom") = NetOutcome.otherErr →
      (handleSearch ⟨"hi", none, none, false, none⟩
          (NetOutcome.axiosErr (some "boom"))).error =
        some "An unexpected error occurred") ∧
    ((NetOutcome.axiosErr (some "boom") = NetOutcome.otherErr ∨
        ∃ d, NetOutcome.axiosErr (some "boom") = NetOutcome.axiosErr d) →
      (handleSearch ⟨"hi", none, none, false, none⟩
          (NetOutcome.axiosErr (some "boom"))).answer = none ∧
      (handleSearch ⟨"hi", none, none, false, none⟩
          (NetOutcome.axiosErr (some "boom"))).totalScore = none) :=
  handleSearch_error_message ⟨"hi", none, none, false, none⟩
    (NetOutcome.axiosErr (some "boom")) (by decide)

/-- C8: on every non-blank query, the first effect is `setLoading true`
(before the POST, which does occur in the trace), the last effect is
`setLoading false` — on the success and on both failure paths — so the
final state never remains loading; and whenever `loading` is true the
rendered input field and submit button are both disabled. -/
theorem handleSearch_loading_discipline (s : FrontendState) (net : NetOutcome)
    (h : jsTrim s.query ≠ "") :
    (handleSearchTrace s.query net).head? = some (Event.setLoading true) ∧
    (handleSearchTrace s.query net).getLast? = some (Event.setLoading false) ∧
    Event.httpPost ⟨queryUrl, jsTrim s.query⟩ ∈ handleSearchTrace s.query net ∧
    (handleSearch s net).loading = false ∧
    (∀ st : FrontendState, st.loading = true →
      (render st).inputDisabled = true ∧ (render st).buttonDisabled = true) := by
  refine ⟨?_, ?_, ?_, ?_, ?_⟩
  · unfold handleSearchTrace
    rw [if_neg h]
    cases net <;> rfl
  · unfold handleSearchTrace
    rw [if_neg h]
    cases net <;> simp
  · unfold handleSearchTrace
    rw [if_neg h]
    cases net <;> simp
  · unfold handleSearch runTrace handleSearchTrace
    rw [if_neg h]
    cases net <;> simp [applyEvent]
  · intro st hst
    simp [render, hst]

/-- C8 witness: the query `"hi"` with a 200 response obeys the loading
discipline. -/
theorem handleSearch_loading_discipline_witness :
    (handleSearchTrace (FrontendState.query ⟨"hi", none, none, false, none⟩)
        (NetOutcome.ok (some "a") 1)).head? = some (Event.setLoading true) ∧
    (handleSearchTrace (FrontendState.query ⟨"hi", none, none, false, none⟩)
        (NetOutcome.ok (some "a") 1)).getLast? =
      some (Event.setLoading false) ∧
    Event.httpPost ⟨queryUrl, jsTrim "hi"⟩ ∈
      handleSearchTrace (FrontendState.query ⟨"hi", none, none, false, none⟩)
        (NetOutcome.ok (some "a") 1) ∧
    (handleSearch ⟨"hi", none, none, false, none⟩
        (NetOutcome.ok (some "a") 1)).loading = false ∧
    (∀ st : FrontendState, st.loading = true →
      (render st).inputDisabled = true ∧ (render st).buttonDisabled = true) :=
  handleSearch_loading_discipline ⟨"hi", none, none, false, none⟩
    (NetOutcome.ok (some "a") 1) (by decide)

/-- C9: every non-blank invocation first resets error, answer and
totalScore to null before the POST (the trace begins with exactly those
resets, then the request); afterwards at most one of error and answer is
non-null — the success path leaves error null, every failure path leaves
answer and totalScore null and error non-null — so the rendered error is
never shown together with a rendered answer. -/
theorem handleSearch_result_exclusive (s : FrontendState) (net : NetOutcome)
    (h : jsTrim s.query ≠ "") :
    (handleSearchTrace s.query net).take 5 =
      [Event.setLoading true, Event.setError none, Event.setAnswer none,
       Event.setScore none, Event.httpPost ⟨queryUrl, jsTrim s.query⟩] ∧
    ((handleSearch s net).error = none ∨ (handleSearch s net).answer = none) ∧
    (∀ a ts, net = NetOutcome.ok a ts → (handleSearch s net).error = none) ∧
    ((net = NetOutcome.otherErr ∨ ∃ d, net = NetOutcome.axiosErr d) →
      (handleSearch s net).answer = none ∧
      (handleSearch s net).totalScore = none ∧
      (handleSearch s net).error ≠ none) ∧
    ¬((render (handleSearch s net)).errorShown.isSome = true ∧
      (render (handleSearch s net)).answerShown.isSome = true) := by
  refine ⟨?_, ?_, ?_, ?_, ?_⟩
  · unfold handleSearchTrace
    rw [if_neg h]
    cases net <;> rfl
  · unfold handleSearch runTrace handleSearchTrace
    rw [if_neg h]
    cases net <;> simp [applyEvent]
  · rintro a ts rfl
    unfold handleSearch runTrace handleSearchTrace
    rw [if_neg h]
    simp [applyEvent]
  · rintro (rfl | ⟨d, rfl⟩) <;>
      · unfold handleSearch runTrace handleSearchTrace
        rw [if_neg h]
        simp [applyEvent]
  · have hone : (handleSearch s net).error = none ∨
        (handleSearch s net).answer = none := by
      unfold handleSearch runTrace handleSearchTrace
      rw [if_neg h]
      cases net <;> simp [applyEvent]
    rintro ⟨he, ha⟩
    rcases hone with hn | hn <;>
      simp [render, truthyStr, hn] at he ha

/-- C9 witness: the query `"hi"` with an axios failure carrying detail
`"bad"` resets first and ends with only the error set. -/
theorem handleSearch_result_exclusive_witness :
    (handleSearchTrace (FrontendState.query ⟨"hi", none, none, false, none⟩)
        (NetOutcome.axiosErr (some "bad"))).take 5 =
      [Event.setLoading true, Event.setError none, Event.setAnswer none,
       Event.setScore none, Event.httpPost ⟨queryUrl, jsTrim "hi"⟩] ∧
    ((handleSearch ⟨"hi", none, none, false, none⟩
        (NetOutcome.axiosErr (some "bad"))).error = none ∨
     (handleSearch ⟨"hi", none, none, false, none⟩
        (NetOutcome.axiosErr (some "bad"))).answer = none) ∧
    (∀ a ts, NetOutcome.axiosErr (some "bad") = NetOutcome.ok a ts →
      (handleSearch ⟨"hi", none, none, false, none⟩
          (NetOutcome.axiosErr (some "bad"))).error = none) ∧
    ((NetOutcome.axiosErr (some "bad") = NetOutcome.otherErr ∨
        ∃ d, NetOutcome.axiosErr (some "bad") = NetOutcome.axiosErr d) →
      (handleSearch ⟨"hi", none, none, false, none⟩
          (NetOutcome.axiosErr (some "bad"))).answer = none ∧
      (handleSearch ⟨"hi", none, none, false, none⟩
          (NetOutcome.axiosErr (some "bad"))).totalScore = none ∧
      (handleSearch ⟨"hi", none, none, false, none⟩
          (NetOutcome.axiosErr (some "bad"))).error ≠ none) ∧
    ¬((render (handleSearch ⟨"hi", none, none, false, none⟩
          (NetOutcome.axiosErr (some "bad")))).errorShown.isSome = true ∧
      (render (handleSearch ⟨"hi", none, none, false, none⟩
          (NetOutcome.axiosErr (some "bad")))).answerShown.isSome = true) :=
  handleSearch_result_exclusive ⟨"hi", none, none, false, none⟩
    (NetOutcome.axiosErr (some "bad")) (by decide)

/-- C10: on a 200 response whose `answer` is null or the empty string,
the frontend stores both values, but renders neither the answer card nor
an error message, and the confidence score badge — which lives inside the
answer block — is not rendered either. -/
theorem blank_answer_renders_nothing (s : FrontendState) (a : Option String)
    (ts : ℚ) (h : jsTrim s.query ≠ "") (ha : truthyStr a = false) :
    (handleSearch s (NetOutcome.ok a ts)).answer = a ∧
    (handleSearch s (NetOutcome.ok a ts)).totalScore = some ts ∧
    (render (handleSearch s (NetOutcome.ok a ts))).answerShown = none ∧
    (render (handleSearch s (NetOutcome.ok a ts))).errorShown = none ∧
    (render (handleSearch s (NetOutcome.ok a ts))).scoreShown = none := by
  have hf : (handleSearch s (NetOutcome.ok a ts)).answer = a ∧
      (handleSearch s (NetOutcome.ok a ts)).totalScore = some ts ∧
      (handleSearch s (NetOutcome.ok a ts)).error = none := by
    unfold handleSearch runTrace handleSearchTrace
    rw [if_neg h]
    simp [applyEvent]
  refine ⟨hf.1, hf.2.1, ?_, ?_, ?_⟩
  · simp [render, hf.1, ha]
  · simp [render, truthyStr, hf.2.2]
  · simp [render, hf.1, ha]

/-- C10 witness: the query `"hi"` answered 200 with a null answer and
score 7 stores the values and renders nothing. -/
theorem blank_answer_renders_nothing_witness :
    (handleSearch ⟨"hi", none, none, false, none⟩
        (NetOutcome.ok none 7)).answer = none ∧
    (handleSearch ⟨"hi", none, none, false, none⟩
        (NetOutcome.ok none 7)).totalScore = some 7 ∧
    (render (handleSearch ⟨"hi", none, none, false, none⟩
        (NetOutcome.ok none 7))).answerShown = none ∧
    (render (handleSearch ⟨"hi", none, none, false, none⟩
        (NetOutcome.ok none 7))).errorShown = none ∧
    (render (handleSearch ⟨"hi", none, none, false, none⟩
        (NetOutcome.ok none 7))).scoreShown = none :=
  blank_answer_renders_nothing ⟨"hi", none, none, false, none⟩ none 7
    (by decide) (by decide)

/-! ## Claims about the backend orchestrator (modelled from the spec) -/

/-- C5: for every non-empty result set, the generation path is taken if
and only if the confidence score (mean of match scores times 100) is at
least the default threshold 25.0; in particular a score of exactly 25
takes the generation path — the gate is inclusive. -/
theorem generation_gate_inclusive (gen : String → String) (q : String)
    (ms : List SearchMatch) (h : ms ≠ []) :
    ((orchestrate defaultThreshold gen q ms).genPrompts ≠ [] ↔
      defaultThreshold ≤ confidenceScore ms) ∧
    (confidenceScore ms = 25 →
      (orchestrate defaultThreshold gen q ms).genPrompts ≠ []) := by
  constructor
  · unfold orchestrate
    rw [if_neg h]
    by_cases hc : defaultThreshold ≤ confidenceScore ms
    · simp [passes, hc]
    · simp [passes, hc]
  · intro h25
    unfold orchestrate
    rw [if_neg h]
    simp [passes, h25, defaultThreshold]

/-- C5 witness: a single match of score 1/4 has confidence exactly 25 and
instantiates the inclusive gate. -/
theorem generation_gate_inclusive_witness :
    ((orchestrate defaultThreshold (fun _ => "g") "q"
        [⟨1/4, "t", "s", 0⟩]).genPrompts ≠ [] ↔
      defaultThreshold ≤ confidenceScore [⟨1/4, "t", "s", 0⟩]) ∧
    (confidenceScore [⟨1/4, "t", "s", 0⟩] = 25 →
      (orchestrate defaultThreshold (fun _ => "g") "q"
          [⟨1/4, "t", "s", 0⟩]).genPrompts ≠ []) :=
  generation_gate_inclusive (fun _ => "g") "q" [⟨1/4, "t", "s", 0⟩] (by simp)

/-- C6: an empty result set yields a confidence score of exactly 0 — by
the explicit empty-set check of `confidenceScore` and `orchestrate`, not
a runtime division — and, for every threshold, the gate never passes: the
generation client is not invoked and the result is the fixed fallback
text with `total_score = 0`. -/
theorem empty_results_fallback (threshold : ℚ) (gen : String → String)
    (q : String) :
    confidenceScore [] = 0 ∧
    orchestrate threshold gen q [] = ⟨⟨FALLBACK_TEXT, 0⟩, []⟩ :=
  ⟨rfl, rfl⟩

/-- C7: whenever the fallback path is taken (no prompt is sent to the
generation client), the returned result carries the fixed fallback text
together with the true computed confidence score — never null. -/
theorem fallback_reports_true_score (threshold : ℚ) (gen : String → String)
    (q : String) (ms : List SearchMatch)
    (h : (orchestrate threshold gen q ms).genPrompts = []) :
    (orchestrate threshold gen q ms).result.answer = FALLBACK_TEXT ∧
    (orchestrate threshold gen q ms).result.total_score =
      confidenceScore ms := by
  by_cases he : ms = []
  · subst he
    exact ⟨rfl, rfl⟩
  · unfold orchestrate at *
    rw [if_neg he] at *
    by_cases hc : passes (confidenceScore ms) threshold
    · simp [hc] at h
    · simp [hc]

/-- C7 witness: the spec's low-confidence scenario, scores
`[0.2, 0.15, 0.1]` against threshold 25, takes the fallback and still
reports the computed score. -/
theorem fallback_reports_true_score_witness :
    (orchestrate 25 (fun _ => "g") "q"
        [⟨2/10, "a", "s", 0⟩, ⟨15/100, "b", "s", 1⟩,
         ⟨1/10, "c", "s", 2⟩]).result.answer = FALLBACK_TEXT ∧
    (orchestrate 25 (fun _ => "g") "q"
        [⟨2/10, "a", "s", 0⟩, ⟨15/100, "b", "s", 1⟩,
         ⟨1/10, "c", "s", 2⟩]).result.total_score =
      confidenceScore
        [⟨2/10, "a", "s", 0⟩, ⟨15/100, "b", "s", 1⟩, ⟨1/10, "c", "s", 2⟩] :=
  fallback_reports_true_score 25 (fun _ => "g") "q" _ (by
    have hp : passes (confidenceScore
        [⟨2/10, "a", "s", 0⟩, ⟨15/100, "b", "s", 1⟩, ⟨1/10, "c", "s", 2⟩]) 25
        = false := by
      rw [confidenceScore, if_neg (by simp)]
      norm_num [passes]
    rw [orchestrate, if_neg (by simp)]
    simp only [hp, Bool.false_eq_true, if_false])
